import Mathlib

/-!
Verification of the wallet-frontend transport layer.

This file gives a shallow embedding of the transport abstraction of the
wallet frontend: the `WebSocketTransport` request-correlation state machine
(`src/lib/transport/WebSocketTransport.ts`), the `HttpProxyTransport`
generic request (`src/lib/transport/HttpProxyTransport.ts`), the
capabilities discovery service (`src/lib/services/CapabilitiesService.ts`)
and the transport-selection logic of the `FlowTransportProvider`
(`src/context/ClientCoreContextProvider.tsx`).  Asynchronous callbacks are
modelled by explicit state passing: every operation returns the successor
state together with the externally observable effects (settled promises,
messages sent on the wire, events delivered to subscribers, scheduled
timers).  `crypto.randomUUID`, which the transport uses to mint correlation
identifiers, is modelled by a strictly increasing counter `nextId` — the
model of the freshness/uniqueness guarantee of a v4 UUID source.
-/

namespace Wallet

/-- JavaScript truthiness of an optional string: `undefined` and `""` are
falsy, every other string is truthy.  Used wherever the source guards on a
possibly-absent string (`params.credentialOfferUri`, `WS_URL`, ...). -/
def strTruthy : Option String → Bool
  | some s => !(s == "")
  | none => false

/-- Inbound wire message (`ServerMessage` in WebSocketTransport.ts):
`{flowId, type, ...fields}`.  The error payload `{error: {code, message}}`
and the progress payload `{stage, progress?, message?}` are flattened into
optional fields; `data` stands for the opaque `data` field used by the
generic request path. -/
structure ServerMessage where
  flowId : Nat
  type : String
  errorCode : Option String := none
  errorMessage : Option String := none
  stage : Option String := none
  progress : Option Nat := none
  message : Option String := none
  data : Option String := none
deriving DecidableEq, Repr

/-- Model of `FlowProgressEvent` of FlowTypes.ts, as built by `handleMessage` for a
`type = "progress"` message. -/
structure FlowProgressEvent where
  flowId : Nat
  stage : Option String
  progress : Option Nat
  message : Option String
deriving DecidableEq, Repr

/-- The `this.ws` field of `WebSocketTransport`: either `null`, or a
WebSocket object in one of its ready states.  `isConnected()` is
`readyState === OPEN`, modelled by `opened`. -/
inductive WsConn
  | null
  | connecting
  | opened
  | closing
deriving DecidableEq, Repr

/-- The mutable instance state of a `WebSocketTransport`.  `pending` holds
the keys of the `pending: Map<string, PendingRequest>` table in insertion
order; `nextId` is the fresh-identifier source modelling
`crypto.randomUUID()`; `progressSubs`/`errorSubs` are the identities of the
registered `onProgress`/`onError` callbacks. -/
structure WSState where
  conn : WsConn
  wsUrl : String
  authToken : String
  pending : List Nat
  nextId : Nat
  reconnectAttempts : Nat
  progressSubs : List Nat
  errorSubs : List Nat
deriving DecidableEq, Repr

/-- Model of `maxReconnectAttempts` field initialiser. -/
def maxReconnectAttempts : Nat := 5

/-- Model of `reconnectDelay` field initialiser (milliseconds). -/
def reconnectDelay : Nat := 1000

/-- Model of `requestTimeout` field initialiser (milliseconds). -/
def requestTimeout : Nat := 60000

/-- Model of `isConnected()`: `this.ws?.readyState === WebSocket.OPEN`. -/
def isConnected (st : WSState) : Bool := st.conn == WsConn.opened

/-- The connection URL built at the top of `connect()`:
`` `${this.wsUrl}?token=${encodeURIComponent(this.authToken)}` ``
(percent-encoding itself is not modelled). -/
def connectionUrl (st : WSState) : String :=
  st.wsUrl ++ "?token=" ++ st.authToken

/-- Model of `updateAuthToken(token)`: replaces `this.authToken`, touching nothing
else. -/
def updateAuthToken (st : WSState) (token : String) : WSState :=
  { st with authToken := token }

/-- Outbound wire message as passed to `send` (only the routing fields
`type`/`flow`/`action` are modelled; the phase-specific payload fields are
opaque to every property in this development). -/
structure OutboundMsg where
  type : String
  flow : Option String := none
  action : Option String := none
deriving DecidableEq, Repr

/-- How a pending promise was settled. -/
inductive Outcome
  | fulfilled (msg : ServerMessage)
  | rejected (err : String)
deriving DecidableEq, Repr

/-- A settlement of the promise of one correlation entry. -/
structure Settlement where
  flowId : Nat
  outcome : Outcome
deriving DecidableEq, Repr

/-- Immediate result of `send`: either the returned promise rejects before
any entry survives in the table, or an entry is registered and the promise
awaits the correlated response. -/
inductive SendOutcome
  | rejectedNow (err : String)
  | awaiting (flowId : Nat)
deriving DecidableEq, Repr

/-- Result of one `send` call: successor state, messages that went out on
the wire, and the immediate status of the promise. -/
structure SendResult where
  st : WSState
  sent : List (Nat × OutboundMsg)
  outcome : SendOutcome
deriving DecidableEq, Repr

/-- Model of `send(message)` of WebSocketTransport.ts.  If the channel is not open
the promise rejects with `WebSocket not connected` before a flowId is
generated.  Otherwise a fresh flowId is minted (`crypto.randomUUID()`,
modelled by `nextId` — no internal caller supplies its own `flowId`), a
timeout is armed, the entry is stored in the pending table and the message
is sent.  `sendOk = false` models `this.ws.send` throwing, in which case
the entry is removed again and the promise rejects. -/
def send (st : WSState) (m : OutboundMsg) (sendOk : Bool) : SendResult :=
  if isConnected st = false then
    { st := st, sent := [], outcome := .rejectedNow "WebSocket not connected" }
  else
    let flowId := st.nextId
    if sendOk then
      { st := { st with pending := st.pending ++ [flowId], nextId := st.nextId + 1 },
        sent := [(flowId, m)],
        outcome := .awaiting flowId }
    else
      { st := { st with nextId := st.nextId + 1 },
        sent := [],
        outcome := .rejectedNow "WebSocket send failed" }

/-- Result of `handleMessage`: successor state, promise settlements,
deliveries to progress subscribers, and console warnings. -/
structure HandleMessageResult where
  st : WSState
  settled : List Settlement
  progressDeliveries : List (Nat × FlowProgressEvent)
  warnings : List String
deriving DecidableEq, Repr

/-- Model of `handleMessage(message)` of WebSocketTransport.ts.  A `"progress"`
message is broadcast to every progress subscriber (`emitProgress` iterates
over all callbacks, isolating their exceptions) and touches no pending
entry.  Any other type looks up the pending entry for its `flowId`: if
found the timer is cleared, the entry removed, and the promise rejected
with the carried error message (`type = "error"`) or fulfilled with the
full message; if not found the message is dropped with a console warning. -/
def handleMessage (st : WSState) (msg : ServerMessage) : HandleMessageResult :=
  if msg.type = "progress" then
    { st := st, settled := [],
      progressDeliveries := st.progressSubs.map (fun s =>
        (s, { flowId := msg.flowId, stage := msg.stage,
              progress := msg.progress, message := msg.message })),
      warnings := [] }
  else if msg.flowId ∈ st.pending then
    { st := { st with pending := st.pending.erase msg.flowId },
      settled := [⟨msg.flowId,
        if msg.type = "error" then .rejected (msg.errorMessage.getD "Unknown error")
        else .fulfilled msg⟩],
      progressDeliveries := [], warnings := [] }
  else
    { st := st, settled := [], progressDeliveries := [],
      warnings := ["Received message for unknown flowId"] }

/-- The per-request timeout callback firing for `flowId`: if the entry is
still pending it is removed and its promise rejected with
`Request timeout`; otherwise nothing happens. -/
def fireTimeout (st : WSState) (flowId : Nat) : WSState × List Settlement :=
  if flowId ∈ st.pending then
    ({ st with pending := st.pending.erase flowId },
     [⟨flowId, .rejected "Request timeout"⟩])
  else (st, [])

/-- Model of `disconnect()` of WebSocketTransport.ts: if `this.ws` is non-null,
the timer of every pending entry is cleared and its promise rejected with
`WebSocket disconnected`, the table is cleared, the channel closed with
code 1000 and `this.ws` set to null. -/
def disconnect (st : WSState) : WSState × List Settlement :=
  if st.conn = WsConn.null then (st, [])
  else
    ({ st with conn := .null, pending := [] },
     st.pending.map (fun fid => ⟨fid, .rejected "WebSocket disconnected"⟩))

/-- Result of `handleDisconnect`: successor state, settlements of the
pending entries, the delay of a scheduled reconnect attempt (if any), and
error events emitted to error subscribers. -/
structure DisconnectResult where
  st : WSState
  settled : List Settlement
  reconnectScheduled : Option Nat
  emitted : List String
deriving DecidableEq, Repr

/-- Model of `handleDisconnect(event)` of WebSocketTransport.ts (the `onclose`
handler): rejects every pending entry with `WebSocket disconnected`,
clears the table, resets `this.ws`; on a clean close (`code === 1000`) it
stops; otherwise, while `reconnectAttempts < maxReconnectAttempts`, a
reconnect is scheduled after `reconnectDelay * 2 ** reconnectAttempts`
milliseconds and the counter incremented; once the budget is exhausted a
terminal error event is emitted instead. -/
def handleDisconnect (st : WSState) (closeCode : Nat) : DisconnectResult :=
  let settled := st.pending.map (fun fid =>
    (⟨fid, .rejected "WebSocket disconnected"⟩ : Settlement))
  let st1 : WSState := { st with pending := [], conn := .null }
  if closeCode = 1000 then
    { st := st1, settled := settled, reconnectScheduled := none, emitted := [] }
  else if st1.reconnectAttempts < maxReconnectAttempts then
    { st := { st1 with reconnectAttempts := st1.reconnectAttempts + 1 },
      settled := settled,
      reconnectScheduled := some (reconnectDelay * 2 ^ st1.reconnectAttempts),
      emitted := [] }
  else
    { st := st1, settled := settled, reconnectScheduled := none,
      emitted := ["WebSocket connection lost after max reconnect attempts"] }

/-- The autonomous reconnection run after an unclean close when every
reconnect attempt fails (spec Scenario C): each iteration is one `onclose`
with an unclean code (1006); while a reconnect is scheduled, the failed
`connect()` emits `WebSocket reconnection failed` (the `.catch` in
`handleDisconnect`) and the subsequent `onclose` re-enters
`handleDisconnect`; once no reconnect is scheduled there is no channel
left to close, so the run stops.  Returns the list of scheduled backoff
delays and the error events emitted, in order.  `fuel` bounds the
iteration count. -/
def uncleanLoop : Nat → WSState → List Nat × List String
  | 0, _ => ([], [])
  | fuel + 1, st =>
    let r := handleDisconnect st 1006
    match r.reconnectScheduled with
    | some d =>
      let rest := uncleanLoop fuel r.st
      (d :: rest.1, (r.emitted ++ ["WebSocket reconnection failed"]) ++ rest.2)
    | none => ([], r.emitted)

/-- One externally triggered event of the transport state machine. -/
inductive WsEvent
  | sendReq (m : OutboundMsg) (sendOk : Bool)
  | inbound (msg : ServerMessage)
  | timerFire (flowId : Nat)
  | clientDisconnect
  | channelClose (closeCode : Nat)
deriving DecidableEq, Repr

/-- Small-step semantics of the transport: the successor state and the
settlements of correlation entries performed by the step.  (The immediate
rejection returned by a failed `send` settles the own promise of the caller,
which never entered the table as an observable entry, so it is reported on
the `SendResult`, not here.) -/
def stepWs (st : WSState) (e : WsEvent) : WSState × List Settlement :=
  match e with
  | .sendReq m ok => ((send st m ok).st, [])
  | .inbound msg =>
    let r := handleMessage st msg
    (r.st, r.settled)
  | .timerFire fid => fireTimeout st fid
  | .clientDisconnect => disconnect st
  | .channelClose code =>
    let r := handleDisconnect st code
    (r.st, r.settled)

/-- Run of the transport over a list of events, concatenating all
settlements. -/
def runWs (st : WSState) : List WsEvent → WSState × List Settlement
  | [] => (st, [])
  | e :: es =>
    let r1 := stepWs st e
    let r2 := runWs r1.1 es
    (r2.1, r1.2 ++ r2.2)

/-- State invariant of the correlation table: the pending keys are
pairwise distinct (they key a `Map`) and every pending key was minted by
the fresh-identifier source. -/
def WSInv (st : WSState) : Prop :=
  st.pending.Nodup ∧ ∀ fid ∈ st.pending, fid < st.nextId

instance (st : WSState) : Decidable (WSInv st) := by
  unfold WSInv; infer_instance

/-! ### Flow entry points of the WebSocket transport -/

/-- Model of `OID4VCIHolderBinding` of OID4VCITypes.ts (the JWK payload is opaque
here). -/
structure OID4VCIHolderBinding where
  method : String
  publicKeyJwk : String
deriving DecidableEq, Repr

/-- Model of `OID4VCIFlowParams` of OID4VCITypes.ts: one wide structure carrying the
fields of every phase; a call populates only the fields of the phase it
requests. -/
structure OID4VCIFlowParams where
  credentialOfferUri : Option String := none
  credentialOffer : Option String := none
  holderBinding : Option OID4VCIHolderBinding := none
  credentialConfigurationId : Option String := none
  authorizationCode : Option String := none
  codeVerifier : Option String := none
  preAuthorizedCode : Option String := none
  txCodeInput : Option String := none
deriving DecidableEq, Repr

/-- Model of `OID4VPFlowParams` of OID4VPTypes.ts.  `selectedCredentials` is a
JavaScript array, which is truthy whenever present (even when empty), so
presence alone is modelled. -/
structure OID4VPFlowParams where
  authorizationRequestUri : Option String := none
  selectedCredentials : Option (List String) := none
deriving DecidableEq, Repr

/-- Model of `FlowRequest` of FlowTypes.ts (payload opaque). -/
structure FlowRequest where
  type : String
  action : String
  payload : Option String := none
deriving DecidableEq, Repr

/-- Model of `FlowError` of FlowTypes.ts. -/
structure FlowError where
  code : String
  message : String
deriving DecidableEq, Repr

/-- Model of `FlowResponse` of FlowTypes.ts (the generic `data` payload is opaque). -/
structure FlowResponse where
  success : Bool
  data : Option String := none
  error : Option FlowError := none
deriving DecidableEq, Repr

/-- Immediate status of a flow-operation call on the WebSocket transport:
a synchronous throw, an immediately rejected promise, an immediately
resolved value, or a promise awaiting the correlated server response. -/
inductive WsCallOutcome
  | thrown (err : String)
  | rejectedNow (err : String)
  | immediate (resp : FlowResponse)
  | awaiting (flowId : Nat)
deriving DecidableEq, Repr

/-- Result of a flow-operation call: successor state, wire traffic, and
the immediate status of the call. -/
structure FlowCallResult where
  st : WSState
  sent : List (Nat × OutboundMsg)
  outcome : WsCallOutcome
deriving DecidableEq, Repr

/-- Lifts a `send` result to a flow call: `await this.send(...)` re-throws
the rejection of the send promise. -/
def liftSend (r : SendResult) : FlowCallResult :=
  { st := r.st, sent := r.sent,
    outcome := match r.outcome with
      | .rejectedNow err => .rejectedNow err
      | .awaiting fid => .awaiting fid }

/-- Model of `startOID4VCIFlow(params)` of WebSocketTransport.ts: the phase is
inferred from which parameter fields are populated (JavaScript truthiness),
trying offer, consent, token-exchange and pre-authorized in that order;
when no combination matches the call throws synchronously, before any
network interaction. -/
def startOID4VCIFlow (st : WSState) (p : OID4VCIFlowParams) (sendOk : Bool) :
    FlowCallResult :=
  if strTruthy p.credentialOfferUri || strTruthy p.credentialOffer then
    liftSend (send st { type := "flow.start", flow := some "oid4vci" } sendOk)
  else if p.holderBinding.isSome && strTruthy p.credentialConfigurationId then
    liftSend (send st
      { type := "flow.continue", flow := some "oid4vci", action := some "consent" } sendOk)
  else if strTruthy p.authorizationCode then
    liftSend (send st
      { type := "flow.continue", flow := some "oid4vci", action := some "token_exchange" } sendOk)
  else if strTruthy p.preAuthorizedCode then
    liftSend (send st
      { type := "flow.continue", flow := some "oid4vci", action := some "pre_authorized" } sendOk)
  else
    { st := st, sent := [],
      outcome := .thrown "Invalid OID4VCI flow params: no valid entry point or continuation" }

/-- Model of `startOID4VPFlow(params)` of WebSocketTransport.ts: a request URI
without a credential selection starts the flow; a credential selection
submits; otherwise the call throws synchronously. -/
def startOID4VPFlow (st : WSState) (p : OID4VPFlowParams) (sendOk : Bool) :
    FlowCallResult :=
  if strTruthy p.authorizationRequestUri && !p.selectedCredentials.isSome then
    liftSend (send st { type := "flow.start", flow := some "oid4vp" } sendOk)
  else if p.selectedCredentials.isSome then
    liftSend (send st
      { type := "flow.continue", flow := some "oid4vp", action := some "submit" } sendOk)
  else
    { st := st, sent := [],
      outcome := .thrown "Invalid OID4VP flow params: no valid entry point or continuation" }

/-- The response mapping inside `request` of WebSocketTransport.ts. -/
def mapGenericResponse (response : ServerMessage) : FlowResponse :=
  if response.type = "error" then
    { success := false,
      error := some ⟨response.errorCode.getD "UNKNOWN_ERROR",
                     response.errorMessage.getD "Unknown error"⟩ }
  else
    { success := true, data := response.data }

/-- Model of `request(flowRequest)` of WebSocketTransport.ts: wraps `send` in a
try/catch — a rejection of the send promise is caught and converted into a
structured `{success: false, error: {code: WEBSOCKET_ERROR, message}}`
response, so this operation never rejects. -/
def wsRequest (st : WSState) (flowRequest : FlowRequest) (sendOk : Bool) :
    FlowCallResult :=
  let r := send st
    { type := "generic.request", flow := none, action := some flowRequest.action } sendOk
  match r.outcome with
  | .rejectedNow err =>
    { st := r.st, sent := r.sent,
      outcome := .immediate { success := false, error := some ⟨"WEBSOCKET_ERROR", err⟩ } }
  | .awaiting fid => { st := r.st, sent := r.sent, outcome := .awaiting fid }

/-- The four recognized OID4VCI phase guards of `startOID4VCIFlow`
(spec §4.3 "phase dispatch rule"), as one disjunction: a parameter value is
a valid phase request iff one of them holds. -/
def vciPhaseValid (p : OID4VCIFlowParams) : Bool :=
  strTruthy p.credentialOfferUri || strTruthy p.credentialOffer ||
  (p.holderBinding.isSome && strTruthy p.credentialConfigurationId) ||
  strTruthy p.authorizationCode || strTruthy p.preAuthorizedCode

/-- The two recognized OID4VP phase guards of `startOID4VPFlow`. -/
def vpPhaseValid (p : OID4VPFlowParams) : Bool :=
  (strTruthy p.authorizationRequestUri && !p.selectedCredentials.isSome) ||
  p.selectedCredentials.isSome

/-! ### HttpProxyTransport -/

/-- Behaviour of the underlying `IHttpProxy` call inside
`HttpProxyTransport.request`: either a `{status, data}` reply or a thrown
error. -/
inductive ProxyOutcome
  | reply (status : Nat) (data : String)
  | thrown (msg : String)
deriving DecidableEq, Repr

/-- Result of `HttpProxyTransport.request`: the returned `FlowResponse`
and the error events emitted to error subscribers. -/
structure HttpRequestResult where
  response : FlowResponse
  emittedErrors : List String
deriving DecidableEq, Repr

/-- Model of `request(flowRequest)` of HttpProxyTransport.ts: non-`general` flow
types are refused with `UNSUPPORTED_FLOW_TYPE`; a proxy reply produces
`success = status in 200..299` with `data` always attached and an `error`
object only for `status >= 400`; a thrown proxy error is caught, emitted to
error subscribers and returned as `{success: false, error: HTTP_ERROR}`. -/
def httpRequest (flowRequest : FlowRequest) (io : ProxyOutcome) : HttpRequestResult :=
  if flowRequest.type ≠ "general" then
    { response :=
        { success := false,
          error := some ⟨"UNSUPPORTED_FLOW_TYPE",
            "HTTP transport only supports general flow type for raw requests. Got: "
              ++ flowRequest.type⟩ },
      emittedErrors := [] }
  else
    match io with
    | .reply status data =>
      { response :=
          { success := decide (200 ≤ status ∧ status < 300),
            data := some data,
            error := if 400 ≤ status then
                some ⟨"HTTP_" ++ toString status,
                      "HTTP request failed with status " ++ toString status⟩
              else none },
        emittedErrors := [] }
    | .thrown msg =>
      { response :=
          { success := false, data := none,
            error := some ⟨"HTTP_ERROR", msg⟩ },
        emittedErrors := [msg] }

/-! ### CapabilitiesService -/

/-- Model of `StatusResponse` of CapabilitiesService.ts. -/
structure StatusResponse where
  status : String
  service : String
  roles : List String
  api_version : Nat
  capabilities : List String
deriving DecidableEq, Repr

/-- Model of `CachedStatus` of CapabilitiesService.ts: a cached manifest or a cached
error (thrown `Error`s are modelled by their messages). -/
structure CachedStatus where
  response : Option StatusResponse
  fetchedAt : Nat
  error : Option String
deriving DecidableEq, Repr

/-- Model of `CACHE_TTL` (5 minutes, in milliseconds). -/
def CACHE_TTL : Nat := 5 * 60 * 1000

/-- The module-level `statusCache: Map<string, CachedStatus>`, keyed by
base URL. -/
abbrev StatusCache : Type := List (String × CachedStatus)

/-- Model of `statusCache.get(baseUrl)`. -/
def cacheGet (c : StatusCache) (baseUrl : String) : Option CachedStatus :=
  (List.find? (fun kv => kv.1 == baseUrl) c).map (fun kv => kv.2)

/-- Model of `statusCache.set(baseUrl, v)`. -/
def cacheSet (c : StatusCache) (baseUrl : String) (v : CachedStatus) : StatusCache :=
  (baseUrl, v) :: List.filter (fun kv => !(kv.1 == baseUrl)) c

/-- What the `fetch` of the `/status` endpoint does on this call: an HTTP
reply with a parsed JSON body, or a thrown network/parse error. -/
inductive FetchOutcome
  | reply (status : Nat) (body : StatusResponse)
  | networkError (msg : String)
deriving DecidableEq, Repr

/-- The synthesized empty-capabilities manifest cached for 404 replies
("old backends without /status endpoint"). -/
def emptyStatus : StatusResponse :=
  { status := "ok", service := "unknown", roles := [], api_version := 1,
    capabilities := [] }

/-- The `try`-block of `fetchStatusCached` (the actual network fetch):
a 2xx reply is cached and returned; a 404 is cached and returned as the
synthesized empty manifest; any other status throws inside the `try`, and
the `catch` caches the error and returns `null` without re-throwing; a
network error takes the same `catch` path.  `Except.error` models a
JavaScript exception escaping to the caller — the fresh-fetch path never
produces one. -/
def fetchStatusFresh (cache : StatusCache) (baseUrl : String) (now : Nat)
    (io : FetchOutcome) : Except String (Option StatusResponse) × StatusCache :=
  match io with
  | .reply status body =>
    if 200 ≤ status ∧ status < 300 then
      (Except.ok (some body),
       cacheSet cache baseUrl { response := some body, fetchedAt := now, error := none })
    else if status = 404 then
      (Except.ok (some emptyStatus),
       cacheSet cache baseUrl { response := some emptyStatus, fetchedAt := now, error := none })
    else
      (Except.ok none,
       cacheSet cache baseUrl
         { response := none, fetchedAt := now,
           error := some ("Failed to fetch status: " ++ toString status) })
  | .networkError msg =>
    (Except.ok none,
     cacheSet cache baseUrl { response := none, fetchedAt := now, error := some msg })

/-- Model of `fetchStatusCached(baseUrl)` of CapabilitiesService.ts.  A fresh cache
entry (within the TTL) is served without a network call — and, crucially,
`if (cached.error) throw cached.error` sits *outside* the `try`/`catch`,
so a fresh cached error is re-thrown to the caller.  A stale or missing
entry falls through to the network fetch. -/
def fetchStatusCached (cache : StatusCache) (baseUrl : String) (now : Nat)
    (io : FetchOutcome) : Except String (Option StatusResponse) × StatusCache :=
  match cacheGet cache baseUrl with
  | some cached =>
    if now - cached.fetchedAt < CACHE_TTL then
      match cached.error with
      | some e => (Except.error e, cache)
      | none => (Except.ok cached.response, cache)
    else fetchStatusFresh cache baseUrl now io
  | none => fetchStatusFresh cache baseUrl now io

/-- Model of `fetchBackendStatus()`: `null` when `BACKEND_URL` is not configured,
else `fetchStatusCached(BACKEND_URL)` with no exception handling of its
own. -/
def fetchBackendStatus (backendUrl : Option String) (cache : StatusCache)
    (now : Nat) (io : FetchOutcome) : Except String (Option StatusResponse) × StatusCache :=
  match backendUrl with
  | some u => if u == "" then (Except.ok none, cache) else fetchStatusCached cache u now io
  | none => (Except.ok none, cache)

/-- Model of `fetchEngineStatus()`: `null` when `ENGINE_URL` is not configured, else
`fetchStatusCached(ENGINE_URL)` with no exception handling of its own. -/
def fetchEngineStatus (engineUrl : Option String) (cache : StatusCache)
    (now : Nat) (io : FetchOutcome) : Except String (Option StatusResponse) × StatusCache :=
  match engineUrl with
  | some u => if u == "" then (Except.ok none, cache) else fetchStatusCached cache u now io
  | none => (Except.ok none, cache)

/-- Model of `hasBackendCapability(capability)`: awaits `fetchBackendStatus` (so an
exception thrown there propagates to the caller of this function) and otherwise
reads `status?.capabilities?.includes(capability) ?? false`. -/
def hasBackendCapability (backendUrl : Option String) (cache : StatusCache)
    (now : Nat) (io : FetchOutcome) (capability : String) :
    Except String Bool × StatusCache :=
  match fetchBackendStatus backendUrl cache now io with
  | (Except.error e, c) => (Except.error e, c)
  | (Except.ok stOpt, c) =>
    (Except.ok (match stOpt with
      | some s => s.capabilities.contains capability
      | none => false), c)

/-- Model of `hasEngineCapability(capability)`: same shape over `ENGINE_URL`. -/
def hasEngineCapability (engineUrl : Option String) (cache : StatusCache)
    (now : Nat) (io : FetchOutcome) (capability : String) :
    Except String Bool × StatusCache :=
  match fetchEngineStatus engineUrl cache now io with
  | (Except.error e, c) => (Except.error e, c)
  | (Except.ok stOpt, c) =>
    (Except.ok (match stOpt with
      | some s => s.capabilities.contains capability
      | none => false), c)

/-- Model of `isWebSocketAvailable()`: `hasEngineCapability(websocket)`. -/
def isWebSocketAvailable (engineUrl : Option String) (cache : StatusCache)
    (now : Nat) (io : FetchOutcome) : Except String Bool × StatusCache :=
  hasEngineCapability engineUrl cache now io "websocket"

/-! ### FlowTransportProvider: transport selection -/

/-- Model of `TransportType` of FlowTypes.ts. -/
inductive TransportType
  | http
  | websocket
  | direct
deriving DecidableEq, Repr

/-- The static configuration consumed by the provider
(`HTTP_TRANSPORT_ALLOWED`, `WEBSOCKET_TRANSPORT_ALLOWED`,
`DIRECT_TRANSPORT_ALLOWED`, `WS_URL`). -/
structure TransportSelectionConfig where
  httpTransportAllowed : Bool
  websocketTransportAllowed : Bool
  directTransportAllowed : Bool
  wsUrl : Option String
deriving DecidableEq, Repr

/-- The `availableTransports` memo of ClientCoreContextProvider.tsx:
http when allowed; websocket only when allowed *and* `WS_URL` is set *and*
the engine advertised the websocket capability; direct when allowed. -/
def availableTransports (cfg : TransportSelectionConfig)
    (wsCapabilityAvailable : Bool) : List TransportType :=
  (if cfg.httpTransportAllowed then [TransportType.http] else []) ++
  (if cfg.websocketTransportAllowed && strTruthy cfg.wsUrl && wsCapabilityAvailable then
    [TransportType.websocket] else []) ++
  (if cfg.directTransportAllowed then [TransportType.direct] else [])

/-- The `{transport, transportType}` pair selected by the provider,
collapsed to its type: the `nullTransport` is exposed as
`transportType = none`. -/
inductive ActiveTransport
  | websocket
  | http
  | noneSelected
deriving DecidableEq, Repr

/-- The transport-selection memo of ClientCoreContextProvider.tsx: walk
`TRANSPORT_PREFERENCE`, skip entries not in `availableTransports`;
websocket is picked only with a constructed *and connected* instance, http
only with a constructed proxy transport, direct is never picked (not
implemented); fall through to the null transport. -/
def selectTransport (preference : List TransportType)
    (available : List TransportType)
    (wsTransportExists wsConnected httpTransportExists : Bool) : ActiveTransport :=
  match preference with
  | [] => .noneSelected
  | pref :: rest =>
    if pref ∈ available then
      match pref with
      | .websocket =>
        if wsTransportExists && wsConnected then .websocket
        else selectTransport rest available wsTransportExists wsConnected httpTransportExists
      | .http =>
        if httpTransportExists then .http
        else selectTransport rest available wsTransportExists wsConnected httpTransportExists
      | .direct =>
        selectTransport rest available wsTransportExists wsConnected httpTransportExists
    else selectTransport rest available wsTransportExists wsConnected httpTransportExists

/-- Spec-side notion of "currently usable" (§4.5): websocket needs a
constructed, connected instance; http needs the constructed proxy
transport; direct is never usable. -/
def usableTransport (wsTransportExists wsConnected httpTransportExists : Bool) :
    TransportType → Bool
  | .websocket => wsTransportExists && wsConnected
  | .http => httpTransportExists
  | .direct => false

/-- Spec-side selection: the first preference entry that is available and
usable, if any. -/
def firstUsable (preference available : List TransportType)
    (wsTransportExists wsConnected httpTransportExists : Bool) : Option TransportType :=
  match preference with
  | [] => none
  | p :: rest =>
    if p ∈ available ∧ usableTransport wsTransportExists wsConnected httpTransportExists p = true
    then some p
    else firstUsable rest available wsTransportExists wsConnected httpTransportExists

/-- Collapse the spec-side selection to the exposed active transport
(direct can never be the result of `firstUsable` since it is never
usable). -/
def toActive : Option TransportType → ActiveTransport
  | some .websocket => .websocket
  | some .http => .http
  | some .direct => .noneSelected
  | none => .noneSelected

/-! ### FlowTransportProvider: WebSocket instance lifecycle -/

/-- The reactive inputs of the WebSocket-management effect of the provider:
exactly its dependency array `[authToken, capabilitiesLoaded,
wsCapabilityAvailable]`. -/
structure ProviderInputs where
  authToken : Option String
  capabilitiesLoaded : Bool
  wsCapabilityAvailable : Bool
deriving DecidableEq, Repr

/-- The static configuration the effect closes over. -/
structure ProviderConfig where
  websocketTransportAllowed : Bool
  wsUrl : Option String
deriving DecidableEq, Repr

/-- Observable actions of the provider on the WebSocket transport
instance. -/
inductive ProviderAction
  | unsubscribeError
  | disconnectTransport
  | clearTransport
  | createTransport (url token : String)
  | connectTransport
deriving DecidableEq, Repr

/-- Body of the WebSocket-management effect (ClientCoreContextProvider.tsx
lines 161-200): wait for capabilities; when any precondition fails, drop
the instance; otherwise construct `new WebSocketTransport(WS_URL,
authToken)` and connect it. -/
def wsEffectBody (cfg : ProviderConfig) (i : ProviderInputs) : List ProviderAction :=
  if !i.capabilitiesLoaded then []
  else if !(cfg.websocketTransportAllowed && i.wsCapabilityAvailable &&
            strTruthy cfg.wsUrl && strTruthy i.authToken) then
    [ProviderAction.clearTransport]
  else
    [ProviderAction.createTransport (cfg.wsUrl.getD "") (i.authToken.getD ""),
     ProviderAction.connectTransport]

/-- Cleanup function registered by that effect: it exists only on the path
that constructed a transport, and it unsubscribes the error listener and
calls `ws.disconnect()` on the instance it created. -/
def wsEffectCleanup (cfg : ProviderConfig) (i : ProviderInputs) : List ProviderAction :=
  if i.capabilitiesLoaded && cfg.websocketTransportAllowed && i.wsCapabilityAvailable &&
      strTruthy cfg.wsUrl && strTruthy i.authToken then
    [ProviderAction.unsubscribeError, ProviderAction.disconnectTransport]
  else []

/-- React's re-render semantics for that effect: when any entry of the
dependency array `[authToken, capabilitiesLoaded, wsCapabilityAvailable]`
changed since the previous render, the previous cleanup runs and then the
new body; otherwise nothing runs. -/
def wsEffectOnRerender (cfg : ProviderConfig) (prev next : ProviderInputs) :
    List ProviderAction :=
  if prev ≠ next then wsEffectCleanup cfg prev ++ wsEffectBody cfg next
  else []

/-! ### Concrete example states used to instantiate the theorems -/

/-- A connected transport with two in-flight correlated requests. -/
def demoConnected : WSState :=
  { conn := .opened, wsUrl := "wss://engine.example/ws", authToken := "token-1",
    pending := [0, 1], nextId := 2, reconnectAttempts := 0,
    progressSubs := [0], errorSubs := [0] }

/-- A transport whose channel is gone (`this.ws === null`). -/
def demoDisconnected : WSState :=
  { conn := .null, wsUrl := "wss://engine.example/ws", authToken := "token-1",
    pending := [], nextId := 0, reconnectAttempts := 0,
    progressSubs := [], errorSubs := [0] }

/-! ## Theorems -/

/-- C5: for every OID4VCI flow-parameters value in which none of the
recognized field combinations is populated (no credentialOfferUri, no
credentialOffer, not both holderBinding and credentialConfigurationId, no
authorizationCode, no preAuthorizedCode), `startOID4VCIFlow` fails
immediately with the invalid-flow-params error, sends zero messages over
the network, and leaves the transport state — in particular the pending
correlation table and the flowId source — untouched, regardless of the
connection state: the validation happens before any network
interaction. -/
theorem oid4vci_invalid_params_fail_fast (st : WSState) (p : OID4VCIFlowParams)
    (sendOk : Bool)
    (h1 : strTruthy p.credentialOfferUri = false)
    (h2 : strTruthy p.credentialOffer = false)
    (h3 : (p.holderBinding.isSome && strTruthy p.credentialConfigurationId) = false)
    (h4 : strTruthy p.authorizationCode = false)
    (h5 : strTruthy p.preAuthorizedCode = false) :
    (startOID4VCIFlow st p sendOk).outcome =
      WsCallOutcome.thrown "Invalid OID4VCI flow params: no valid entry point or continuation" ∧
    (startOID4VCIFlow st p sendOk).sent = [] ∧
    (startOID4VCIFlow st p sendOk).st = st := by
  simp [startOID4VCIFlow, h1, h2, h3, h4, h5]

/-- C5 witness: evaluated at an all-empty parameter record on a connected
transport. -/
theorem oid4vci_invalid_params_fail_fast_witness :
    (startOID4VCIFlow demoConnected {} true).outcome =
      WsCallOutcome.thrown "Invalid OID4VCI flow params: no valid entry point or continuation" ∧
    (startOID4VCIFlow demoConnected {} true).sent = [] ∧
    (startOID4VCIFlow demoConnected {} true).st = demoConnected :=
  oid4vci_invalid_params_fail_fast demoConnected {} true rfl rfl rfl rfl rfl

/-- C2: with any K pending correlated requests, both an explicit
`disconnect()` call (while a channel object exists) and a channel-close
event reject all K pending requests with the disconnection error and leave
the pending-request table empty afterwards. -/
theorem disconnect_rejects_all_pending (st : WSState) (h : st.conn ≠ WsConn.null)
    (closeCode : Nat) :
    (disconnect st).1.pending = [] ∧
    (disconnect st).2 =
      st.pending.map (fun fid => ⟨fid, Outcome.rejected "WebSocket disconnected"⟩) ∧
    (disconnect st).2.length = st.pending.length ∧
    (handleDisconnect st closeCode).st.pending = [] ∧
    (handleDisconnect st closeCode).settled =
      st.pending.map (fun fid => ⟨fid, Outcome.rejected "WebSocket disconnected"⟩) ∧
    (handleDisconnect st closeCode).settled.length = st.pending.length := by
  refine ⟨?_, ?_, ?_, ?_, ?_, ?_⟩ <;>
    first
      | simp [disconnect, h]
      | (simp only [handleDisconnect]; split_ifs <;> simp)

/-- C2 witness: evaluated at a connected transport with two pending
requests and an unclean close code. -/
theorem disconnect_rejects_all_pending_witness :
    demoConnected.conn ≠ WsConn.null ∧
    ((disconnect demoConnected).1.pending = [] ∧
     (disconnect demoConnected).2 =
       demoConnected.pending.map (fun fid => ⟨fid, Outcome.rejected "WebSocket disconnected"⟩) ∧
     (disconnect demoConnected).2.length = demoConnected.pending.length ∧
     (handleDisconnect demoConnected 1006).st.pending = [] ∧
     (handleDisconnect demoConnected 1006).settled =
       demoConnected.pending.map (fun fid => ⟨fid, Outcome.rejected "WebSocket disconnected"⟩) ∧
     (handleDisconnect demoConnected 1006).settled.length = demoConnected.pending.length) :=
  ⟨by decide, disconnect_rejects_all_pending demoConnected (by decide) 1006⟩

/-- While the channel is not open, `send` rejects at once, before minting a
flowId, sending anything or touching the pending table. -/
theorem send_not_connected (st : WSState) (m : OutboundMsg) (sendOk : Bool)
    (h : isConnected st = false) :
    send st m sendOk =
      { st := st, sent := [], outcome := .rejectedNow "WebSocket not connected" } := by
  simp [send, h]

/-- C10 (amended): while the channel is not open, `startOID4VCIFlow` and
`startOID4VPFlow` with valid phase parameters reject immediately with the
not-connected error, and the generic `request` — whose `try`/`catch`
converts the same rejection — resolves immediately with a structured
`{success: false, error: {code: WEBSOCKET_ERROR, message: WebSocket not
connected}}` response instead of rejecting; in all three cases nothing is
sent over the network, no flowId is generated and the pending-request
table is unchanged. -/
theorem not_connected_fail_fast (st : WSState) (h : isConnected st = false)
    (p : OID4VCIFlowParams) (hp : vciPhaseValid p = true)
    (q : OID4VPFlowParams) (hq : vpPhaseValid q = true)
    (flowRequest : FlowRequest) (sendOk : Bool) :
    startOID4VCIFlow st p sendOk =
      { st := st, sent := [], outcome := .rejectedNow "WebSocket not connected" } ∧
    startOID4VPFlow st q sendOk =
      { st := st, sent := [], outcome := .rejectedNow "WebSocket not connected" } ∧
    wsRequest st flowRequest sendOk =
      { st := st, sent := [],
        outcome := .immediate
          { success := false,
            error := some ⟨"WEBSOCKET_ERROR", "WebSocket not connected"⟩ } } := by
  refine ⟨?_, ?_, ?_⟩
  · unfold startOID4VCIFlow
    split_ifs with g1 g2 g3 g4
    · simp [liftSend, send_not_connected st _ sendOk h]
    · simp [liftSend, send_not_connected st _ sendOk h]
    · simp [liftSend, send_not_connected st _ sendOk h]
    · simp [liftSend, send_not_connected st _ sendOk h]
    · exfalso
      simp only [vciPhaseValid, Bool.or_eq_true] at hp
      simp only [Bool.or_eq_true] at g1
      rcases hp with ((((hx | hx) | hx) | hx) | hx) <;> simp_all
  · unfold startOID4VPFlow
    split_ifs with g1 g2
    · simp [liftSend, send_not_connected st _ sendOk h]
    · simp [liftSend, send_not_connected st _ sendOk h]
    · exfalso
      simp only [vpPhaseValid, Bool.or_eq_true] at hp hq
      simp_all
  · unfold wsRequest
    rw [send_not_connected st _ sendOk h]

/-- C10 counterexample to the claim as stated: at a concrete disconnected
transport the generic `request` does *not* reject with the not-connected
error — it resolves with a structured failure response carrying that
message. -/
theorem not_connected_request_resolves_cex :
    (wsRequest demoDisconnected { type := "general", action := "ping" } true).outcome =
      WsCallOutcome.immediate
        { success := false, data := none,
          error := some ⟨"WEBSOCKET_ERROR", "WebSocket not connected"⟩ } ∧
    (wsRequest demoDisconnected { type := "general", action := "ping" } true).outcome ≠
      WsCallOutcome.rejectedNow "WebSocket not connected" ∧
    (wsRequest demoDisconnected { type := "general", action := "ping" } true).outcome ≠
      WsCallOutcome.thrown "WebSocket not connected" := by
  refine ⟨by decide, by decide, by decide⟩

/-- C10 witness: the amended statement evaluated at a disconnected
transport, a start-phase OID4VCI parameter set, a submit-phase OID4VP
parameter set and a generic request. -/
theorem not_connected_fail_fast_witness :
    isConnected demoDisconnected = false ∧
    (startOID4VCIFlow demoDisconnected
        { credentialOfferUri := some "openid-credential-offer://offer" } true =
      { st := demoDisconnected, sent := [],
        outcome := .rejectedNow "WebSocket not connected" } ∧
     startOID4VPFlow demoDisconnected { selectedCredentials := some ["cred-1"] } true =
      { st := demoDisconnected, sent := [],
        outcome := .rejectedNow "WebSocket not connected" } ∧
     wsRequest demoDisconnected { type := "general", action := "ping" } true =
      { st := demoDisconnected, sent := [],
        outcome := .immediate
          { success := false,
            error := some ⟨"WEBSOCKET_ERROR", "WebSocket not connected"⟩ } }) :=
  ⟨by decide,
   not_connected_fail_fast demoDisconnected (by decide)
     { credentialOfferUri := some "openid-credential-offer://offer" } (by decide)
     { selectedCredentials := some ["cred-1"] } (by decide)
     { type := "general", action := "ping" } true⟩

/-- C4: dispatch of inbound messages.  A `"progress"` message is broadcast
to all progress subscribers and never resolves or rejects any pending
entry; an `"error"` message rejects the matching pending entry with the
carried error message; any other type fulfills the matching pending entry
with the full message; and a non-progress message whose flowId matches no
pending entry is dropped with a diagnostic log, raising no error and
altering no state. -/
theorem inbound_message_dispatch (st : WSState) (msg : ServerMessage) :
    (msg.type = "progress" →
      (handleMessage st msg).st = st ∧
      (handleMessage st msg).settled = [] ∧
      (handleMessage st msg).progressDeliveries = st.progressSubs.map (fun s =>
        (s, { flowId := msg.flowId, stage := msg.stage,
              progress := msg.progress, message := msg.message })) ∧
      (handleMessage st msg).warnings = []) ∧
    (msg.type ≠ "progress" → msg.flowId ∈ st.pending →
      (handleMessage st msg).st.pending = st.pending.erase msg.flowId ∧
      (handleMessage st msg).settled =
        [⟨msg.flowId,
          if msg.type = "error" then Outcome.rejected (msg.errorMessage.getD "Unknown error")
          else Outcome.fulfilled msg⟩] ∧
      (handleMessage st msg).warnings = []) ∧
    (msg.type ≠ "progress" → msg.flowId ∉ st.pending →
      (handleMessage st msg).st = st ∧
      (handleMessage st msg).settled = [] ∧
      (handleMessage st msg).progressDeliveries = [] ∧
      (handleMessage st msg).warnings = ["Received message for unknown flowId"]) := by
  refine ⟨fun hprog => ?_, fun hnp hmem => ?_, fun hnp hmem => ?_⟩ <;>
    simp [handleMessage, *]

/-- C4 witness: the three cases evaluated on a transport with pending
requests 0 and 1 — a progress event, an error response for pending flowId
1, and an unknown-flowId result message. -/
theorem inbound_message_dispatch_witness :
    ((handleMessage demoConnected
        { flowId := 0, type := "progress", stage := some "fetching" }).st = demoConnected ∧
     (handleMessage demoConnected
        { flowId := 0, type := "progress", stage := some "fetching" }).settled = [] ∧
     (handleMessage demoConnected
        { flowId := 0, type := "progress", stage := some "fetching" }).progressDeliveries =
       demoConnected.progressSubs.map (fun s =>
         (s, { flowId := 0, stage := some "fetching", progress := none, message := none })) ∧
     (handleMessage demoConnected
        { flowId := 0, type := "progress", stage := some "fetching" }).warnings = []) ∧
    ((handleMessage demoConnected
        { flowId := 1, type := "error", errorMessage := some "Invalid credential offer" }).st.pending =
       demoConnected.pending.erase 1 ∧
     (handleMessage demoConnected
        { flowId := 1, type := "error", errorMessage := some "Invalid credential offer" }).settled =
       [⟨1, if ("error" : String) = "error" then Outcome.rejected "Invalid credential offer"
            else Outcome.fulfilled
              { flowId := 1, type := "error", errorMessage := some "Invalid credential offer" }⟩] ∧
     (handleMessage demoConnected
        { flowId := 1, type := "error", errorMessage := some "Invalid credential offer" }).warnings = []) ∧
    ((handleMessage demoConnected { flowId := 9, type := "flow.result" }).st = demoConnected ∧
     (handleMessage demoConnected { flowId := 9, type := "flow.result" }).settled = [] ∧
     (handleMessage demoConnected { flowId := 9, type := "flow.result" }).progressDeliveries = [] ∧
     (handleMessage demoConnected { flowId := 9, type := "flow.result" }).warnings =
       ["Received message for unknown flowId"]) :=
  ⟨(inbound_message_dispatch demoConnected
      { flowId := 0, type := "progress", stage := some "fetching" }).1 rfl,
   (inbound_message_dispatch demoConnected
      { flowId := 1, type := "error", errorMessage := some "Invalid credential offer" }).2.1
     (by decide) (by decide),
   (inbound_message_dispatch demoConnected
      { flowId := 9, type := "flow.result" }).2.2 (by decide) (by decide)⟩

/-- C7 counterexample to the claim as stated: a proxy reply with status
304 yields `success = false` with *no* error field — the envelope
invariant "success=false implies error present" fails on redirect-class
statuses. -/
theorem flow_response_envelope_cex :
    (httpRequest { type := "general", action := "fetch" }
        (ProxyOutcome.reply 304 "not modified")).response.success = false ∧
    (httpRequest { type := "general", action := "fetch" }
        (ProxyOutcome.reply 304 "not modified")).response.error = none := by
  refine ⟨by decide, by decide⟩

/-- C7 (amended): every `FlowResponse` produced by the HTTP proxy
generic `request` of the transport satisfies: `success = true` implies the
error field is absent; and `success = false` implies the error field is
present, *except* when the proxy replied with a status outside 200-299
and below 400 (informational/redirect statuses), in which case
`success = false` comes with no error field. -/
theorem flow_response_envelope (flowRequest : FlowRequest) (io : ProxyOutcome) :
    ((httpRequest flowRequest io).response.success = true →
      (httpRequest flowRequest io).response.error = none) ∧
    ((httpRequest flowRequest io).response.success = false →
      (httpRequest flowRequest io).response.error = none →
      ∃ status data, io = ProxyOutcome.reply status data ∧
        flowRequest.type = "general" ∧
        ¬(200 ≤ status ∧ status < 300) ∧ status < 400) := by
  unfold httpRequest
  split_ifs with ht
  · refine ⟨fun hs => by simp at hs, fun _ he => by simp at he⟩
  · cases io with
    | reply status data =>
      dsimp only
      refine ⟨fun hs => ?_, fun hs he => ?_⟩
      · simp only [decide_eq_true_eq] at hs
        rw [if_neg (by omega)]
      · simp only [decide_eq_false_iff_not] at hs
        refine ⟨status, data, rfl, by simpa using ht, hs, ?_⟩
        by_contra hge
        simp only [not_lt] at hge
        rw [if_pos hge] at he
        simp at he
    | thrown msg =>
      refine ⟨fun hs => by simp at hs, fun _ he => by simp at he⟩

/-- C7 witness: the amended invariant evaluated at a successful 204 reply
(success with no error) and at a thrown proxy error (failure with error
present). -/
theorem flow_response_envelope_witness :
    (httpRequest { type := "general", action := "post" }
        (ProxyOutcome.reply 204 "no content")).response.error = none ∧
    (httpRequest { type := "general", action := "post" }
        (ProxyOutcome.reply 204 "no content")).response.success = true :=
  ⟨(flow_response_envelope { type := "general", action := "post" }
      (ProxyOutcome.reply 204 "no content")).1 (by decide), by decide⟩

/-- Lemma: `statusCache.get` after `statusCache.set` on the same key returns the
value just stored. -/
theorem cacheGet_cacheSet (c : StatusCache) (k : String) (v : CachedStatus) :
    cacheGet (cacheSet c k v) k = some v := by
  simp [cacheGet, cacheSet]

/-- When no fresh cache entry exists for the endpoint, `fetchStatusCached`
performs the network fetch. -/
theorem fetchStatusCached_stale (cache : StatusCache) (url : String) (now : Nat)
    (io : FetchOutcome)
    (hmiss : ∀ c, cacheGet cache url = some c → CACHE_TTL ≤ now - c.fetchedAt) :
    fetchStatusCached cache url now io = fetchStatusFresh cache url now io := by
  unfold fetchStatusCached
  cases hcg : cacheGet cache url with
  | none => rfl
  | some c =>
    have := hmiss c hcg
    dsimp only
    rw [if_neg (by omega)]

/-- C6 counterexample to the claim as stated: a first capability fetch
that hits a network error returns `null` and caches the error; but a
second call within the TTL window re-throws the cached error (the re-throw
sits outside the `try`/`catch`), and `hasEngineCapability` /
`hasBackendCapability` propagate that exception to their callers instead
of degrading to "capability unavailable". -/
theorem capability_fetch_error_cex :
    (fetchEngineStatus (some "https://engine.example") [] 0
        (FetchOutcome.networkError "network down")).1 = Except.ok none ∧
    (fetchEngineStatus (some "https://engine.example") [] 0
        (FetchOutcome.networkError "network down")).2 =
      [("https://engine.example",
        { response := none, fetchedAt := 0, error := some "network down" })] ∧
    (fetchEngineStatus (some "https://engine.example")
        [("https://engine.example",
          { response := none, fetchedAt := 0, error := some "network down" })]
        60000 (FetchOutcome.reply 200 emptyStatus)).1 = Except.error "network down" ∧
    (hasEngineCapability (some "https://engine.example")
        [("https://engine.example",
          { response := none, fetchedAt := 0, error := some "network down" })]
        60000 (FetchOutcome.reply 200 emptyStatus) "websocket").1 =
      Except.error "network down" ∧
    (hasBackendCapability (some "https://backend.example")
        [("https://backend.example",
          { response := none, fetchedAt := 0, error := some "network down" })]
        60000 (FetchOutcome.reply 200 emptyStatus) "storage").1 =
      Except.error "network down" := by
  refine ⟨rfl, rfl, rfl, rfl, rfl⟩

/-- C6 (amended): the capability fetch call that *performs* a failing
network fetch (network error, or non-404 non-success response) returns
`null` without throwing and caches an error entry; a subsequent call
within the TTL window re-throws that cached error, and the exception
propagates through `fetchEngineStatus` to feature-gating callers such as
`hasEngineCapability`; when the fetch result is `null`, capability queries
degrade to reporting the capability as unavailable. -/
theorem capability_fetch_error_policy
    (cache : StatusCache) (url : String) (now : Nat) (io : FetchOutcome)
    (hurl : url ≠ "")
    (hmiss : ∀ c, cacheGet cache url = some c → CACHE_TTL ≤ now - c.fetchedAt) :
    (∀ msg, io = FetchOutcome.networkError msg →
      (fetchStatusCached cache url now io).1 = Except.ok none ∧
      cacheGet (fetchStatusCached cache url now io).2 url =
        some { response := none, fetchedAt := now, error := some msg }) ∧
    (∀ status body, io = FetchOutcome.reply status body →
      ¬(200 ≤ status ∧ status < 300) → status ≠ 404 →
      (fetchStatusCached cache url now io).1 = Except.ok none ∧
      cacheGet (fetchStatusCached cache url now io).2 url =
        some { response := none, fetchedAt := now,
               error := some ("Failed to fetch status: " ++ toString status) }) ∧
    (∀ (c2 : StatusCache) (tf later : Nat) (e : String) (io2 : FetchOutcome)
        (capName : String),
      cacheGet c2 url = some { response := none, fetchedAt := tf, error := some e } →
      later - tf < CACHE_TTL →
      (fetchStatusCached c2 url later io2).1 = Except.error e ∧
      (fetchEngineStatus (some url) c2 later io2).1 = Except.error e ∧
      (hasEngineCapability (some url) c2 later io2 capName).1 = Except.error e) ∧
    (∀ capName, (fetchEngineStatus (some url) cache now io).1 = Except.ok none →
      (hasEngineCapability (some url) cache now io capName).1 = Except.ok false) := by
  have hbeq : (url == "") = false := by
    simpa using hurl
  refine ⟨?_, ?_, ?_, ?_⟩
  · rintro msg rfl
    rw [fetchStatusCached_stale cache url now _ hmiss]
    exact ⟨rfl, cacheGet_cacheSet ..⟩
  · rintro status body rfl hns h404
    rw [fetchStatusCached_stale cache url now _ hmiss]
    unfold fetchStatusFresh
    dsimp only
    rw [if_neg hns, if_neg h404]
    exact ⟨rfl, cacheGet_cacheSet ..⟩
  · intro c2 tf later e io2 capName hcg hfresh
    have h1 : (fetchStatusCached c2 url later io2).1 = Except.error e := by
      unfold fetchStatusCached
      rw [hcg]
      dsimp only
      rw [if_pos hfresh]
    have h2 : (fetchEngineStatus (some url) c2 later io2).1 = Except.error e := by
      unfold fetchEngineStatus
      dsimp only
      rw [hbeq]
      simpa using h1
    refine ⟨h1, h2, ?_⟩
    unfold hasEngineCapability
    rcases hfe : fetchEngineStatus (some url) c2 later io2 with ⟨exv, c⟩
    rw [hfe] at h2
    simp only at h2
    subst h2
    rfl
  · intro capName h
    unfold hasEngineCapability
    rcases hfe : fetchEngineStatus (some url) cache now io with ⟨exv, c⟩
    rw [hfe] at h
    simp only at h
    subst h
    rfl

/-- C6 witness: the amended policy evaluated on an empty cache, a network
error, and the resulting cached-error entry queried again within the
TTL. -/
theorem capability_fetch_error_policy_witness :
    ((fetchStatusCached [] "https://engine.example" 0
        (FetchOutcome.networkError "network down")).1 = Except.ok none ∧
     cacheGet (fetchStatusCached [] "https://engine.example" 0
        (FetchOutcome.networkError "network down")).2 "https://engine.example" =
       some { response := none, fetchedAt := 0, error := some "network down" }) ∧
    ((fetchStatusCached
        [("https://engine.example",
          { response := none, fetchedAt := 0, error := some "network down" })]
        "https://engine.example" 60000 (FetchOutcome.reply 200 emptyStatus)).1 =
       Except.error "network down" ∧
     (fetchEngineStatus (some "https://engine.example")
        [("https://engine.example",
          { response := none, fetchedAt := 0, error := some "network down" })]
        60000 (FetchOutcome.reply 200 emptyStatus)).1 = Except.error "network down" ∧
     (hasEngineCapability (some "https://engine.example")
        [("https://engine.example",
          { response := none, fetchedAt := 0, error := some "network down" })]
        60000 (FetchOutcome.reply 200 emptyStatus) "websocket").1 =
       Except.error "network down") :=
  ⟨(capability_fetch_error_policy [] "https://engine.example" 0
      (FetchOutcome.networkError "network down") (by decide)
      (fun c hc => by simp [cacheGet] at hc)).1 "network down" rfl,
   (capability_fetch_error_policy [] "https://engine.example" 0
      (FetchOutcome.networkError "network down") (by decide)
      (fun c hc => by simp [cacheGet] at hc)).2.2.1
     [("https://engine.example",
       { response := none, fetchedAt := 0, error := some "network down" })]
     0 60000 "network down" (FetchOutcome.reply 200 emptyStatus) "websocket"
     rfl (by decide)⟩

/-- C8: evaluation at the failing input.  The claim (and spec §4.5) says a
session-token change updates, for the existing WebSocket transport instance, its
credentials in place with no teardown/recreate, leaving the open
connection and in-flight requests unaffected.  The transport method
`updateAuthToken` indeed does exactly that (last conjunct), and the
provider even has a dedicated effect calling it — but the
instance-management effect of the provider lists `authToken` in its dependency array, so a
rotation from `token-1` to `token-2` re-runs it: the registered cleanup
disconnects the existing instance (rejecting its in-flight correlated
requests with the disconnection error, middle conjunct) and a brand-new
instance is constructed and connected with the new token (first
conjunct). -/
theorem token_rotation_teardown :
    wsEffectOnRerender
      { websocketTransportAllowed := true, wsUrl := some "wss://engine.example/ws" }
      { authToken := some "token-1", capabilitiesLoaded := true, wsCapabilityAvailable := true }
      { authToken := some "token-2", capabilitiesLoaded := true, wsCapabilityAvailable := true } =
      [ProviderAction.unsubscribeError, ProviderAction.disconnectTransport,
       ProviderAction.createTransport "wss://engine.example/ws" "token-2",
       ProviderAction.connectTransport] ∧
    (disconnect demoConnected).2 =
      [⟨0, Outcome.rejected "WebSocket disconnected"⟩,
       ⟨1, Outcome.rejected "WebSocket disconnected"⟩] ∧
    updateAuthToken demoConnected "token-2" = { demoConnected with authToken := "token-2" } ∧
    (updateAuthToken demoConnected "token-2").pending = demoConnected.pending ∧
    (updateAuthToken demoConnected "token-2").conn = demoConnected.conn ∧
    connectionUrl (updateAuthToken demoConnected "token-2") =
      "wss://engine.example/ws?token=token-2" := by
  refine ⟨by decide, by decide, by decide, by decide, by decide, by decide⟩

/-- The selection memo computes exactly the first preference entry that is
available and currently usable. -/
theorem selectTransport_eq_firstUsable (preference available : List TransportType)
    (wsE wsC httpE : Bool) :
    selectTransport preference available wsE wsC httpE =
      toActive (firstUsable preference available wsE wsC httpE) := by
  induction preference with
  | nil => rfl
  | cons p rest ih =>
    unfold selectTransport firstUsable
    by_cases hmem : p ∈ available
    · cases p with
      | websocket =>
        by_cases hu : (wsE && wsC) = true
        · simp [hmem, hu, usableTransport, toActive]
        · simp [hmem, hu, usableTransport, toActive, ih]
      | http =>
        by_cases hu : httpE = true
        · simp [hmem, hu, usableTransport, toActive]
        · have hf : httpE = false := by simpa using hu
          subst hf
          simp [hmem, usableTransport, toActive, ih]
      | direct =>
        simp [hmem, usableTransport, toActive, ih]
    · cases p <;> simp [hmem, usableTransport, toActive, ih]

/-- The websocket entry of `availableTransports` is present exactly under
the three-way gate: administratively allowed, URL configured, capability
advertised. -/
theorem websocket_available_iff (cfg : TransportSelectionConfig) (cap : Bool) :
    TransportType.websocket ∈ availableTransports cfg cap ↔
      cfg.websocketTransportAllowed = true ∧ strTruthy cfg.wsUrl = true ∧ cap = true := by
  unfold availableTransports
  split_ifs with h1 h2 h3 <;> simp_all [Bool.and_eq_true]

/-- A selected entry of `firstUsable` is available and usable. -/
theorem firstUsable_mem (preference available : List TransportType)
    (wsE wsC httpE : Bool) (p : TransportType)
    (h : firstUsable preference available wsE wsC httpE = some p) :
    p ∈ available ∧ usableTransport wsE wsC httpE p = true := by
  induction preference with
  | nil => simp [firstUsable] at h
  | cons q rest ih =>
    unfold firstUsable at h
    split_ifs at h with hq
    · cases h
      exact hq
    · exact ih h

/-- Lemma: `firstUsable` is `none` when no preference entry qualifies. -/
theorem firstUsable_eq_none (preference available : List TransportType)
    (wsE wsC httpE : Bool)
    (h : ∀ p ∈ preference,
      ¬(p ∈ available ∧ usableTransport wsE wsC httpE p = true)) :
    firstUsable preference available wsE wsC httpE = none := by
  induction preference with
  | nil => rfl
  | cons q rest ih =>
    unfold firstUsable
    rw [if_neg (h q (by simp))]
    exact ih (fun p hp => h p (by simp [hp]))

/-- C9: transport selection.  The websocket transport is in the available
set exactly when it is administratively allowed, the WebSocket URL is
configured, and capability discovery confirmed the websocket capability;
the active transport is the first entry of the preference order that is
available and currently usable (websocket additionally needs a
constructed, connected instance; http needs the constructed proxy
transport; direct is never usable); when no entry qualifies the null
transport is selected (exposed as transport type none); and a backend
without the websocket capability is never selected as the websocket
transport, however the rest is configured. -/
theorem transport_selection (cfg : TransportSelectionConfig)
    (cap wsE wsC httpE : Bool) (preference : List TransportType) :
    (TransportType.websocket ∈ availableTransports cfg cap ↔
      cfg.websocketTransportAllowed = true ∧ strTruthy cfg.wsUrl = true ∧ cap = true) ∧
    (selectTransport preference (availableTransports cfg cap) wsE wsC httpE =
      toActive (firstUsable preference (availableTransports cfg cap) wsE wsC httpE)) ∧
    ((∀ p ∈ preference, ¬(p ∈ availableTransports cfg cap ∧
        usableTransport wsE wsC httpE p = true)) →
      selectTransport preference (availableTransports cfg cap) wsE wsC httpE =
        ActiveTransport.noneSelected) ∧
    (cap = false →
      selectTransport preference (availableTransports cfg cap) wsE wsC httpE ≠
        ActiveTransport.websocket) := by
  refine ⟨websocket_available_iff cfg cap,
    selectTransport_eq_firstUsable preference (availableTransports cfg cap) wsE wsC httpE,
    fun h => ?_, fun hcap hsel => ?_⟩
  · rw [selectTransport_eq_firstUsable,
      firstUsable_eq_none preference (availableTransports cfg cap) wsE wsC httpE h]
    rfl
  · rw [selectTransport_eq_firstUsable] at hsel
    have hfu : firstUsable preference (availableTransports cfg cap) wsE wsC httpE =
        some TransportType.websocket := by
      rcases hx : firstUsable preference (availableTransports cfg cap) wsE wsC httpE with
        _ | p
      · rw [hx] at hsel
        simp [toActive] at hsel
      · cases p <;> rw [hx] at hsel <;> first | rfl | simp [toActive] at hsel
    have hmem := (firstUsable_mem preference (availableTransports cfg cap)
      wsE wsC httpE TransportType.websocket hfu).1
    rw [websocket_available_iff] at hmem
    rw [hcap] at hmem
    simp at hmem

/-- C9 witness: a configuration that allows every transport with a set
URL, but whose backend manifest lacks the websocket capability, walked
with the preference order websocket-then-http: the selection is the http
proxy, not websocket; and with nothing usable the selection is none. -/
theorem transport_selection_witness :
    (TransportType.websocket ∈
        availableTransports
          { httpTransportAllowed := true, websocketTransportAllowed := true,
            directTransportAllowed := true, wsUrl := some "wss://engine.example/ws" }
          false ↔
      True = True ∧ True = True ∧ False = True) ∧
    selectTransport [TransportType.websocket, TransportType.http]
        (availableTransports
          { httpTransportAllowed := true, websocketTransportAllowed := true,
            directTransportAllowed := true, wsUrl := some "wss://engine.example/ws" }
          false) true true true ≠ ActiveTransport.websocket ∧
    selectTransport [TransportType.websocket, TransportType.http]
        (availableTransports
          { httpTransportAllowed := true, websocketTransportAllowed := true,
            directTransportAllowed := true, wsUrl := some "wss://engine.example/ws" }
          false) true true true = ActiveTransport.http ∧
    selectTransport [TransportType.websocket, TransportType.http]
        (availableTransports
          { httpTransportAllowed := false, websocketTransportAllowed := true,
            directTransportAllowed := false, wsUrl := some "wss://engine.example/ws" }
          false) false false false = ActiveTransport.noneSelected :=
  ⟨by decide,
   (transport_selection
      { httpTransportAllowed := true, websocketTransportAllowed := true,
        directTransportAllowed := true, wsUrl := some "wss://engine.example/ws" }
      false true true true [TransportType.websocket, TransportType.http]).2.2.2 rfl,
   by decide,
   (transport_selection
      { httpTransportAllowed := false, websocketTransportAllowed := true,
        directTransportAllowed := false, wsUrl := some "wss://engine.example/ws" }
      false false false false [TransportType.websocket, TransportType.http]).2.2.1
     (by decide)⟩

/-- An unclean close with remaining attempt budget: pending rejected,
counter incremented, reconnect scheduled with the doubled backoff delay,
nothing emitted. -/
theorem handleDisconnect_unclean_retry (s : WSState)
    (h5 : s.reconnectAttempts < maxReconnectAttempts) :
    handleDisconnect s 1006 =
      { st :=
          { s with
            pending := [], conn := .null,
            reconnectAttempts := s.reconnectAttempts + 1 },
        settled := s.pending.map (fun fid => ⟨fid, .rejected "WebSocket disconnected"⟩),
        reconnectScheduled := some (reconnectDelay * 2 ^ s.reconnectAttempts),
        emitted := [] } := by
  unfold handleDisconnect
  dsimp only
  rw [if_neg (by omega : ¬(1006 = 1000)), if_pos h5]

/-- An unclean close with the budget exhausted: no reconnect is scheduled
and the terminal error event is emitted. -/
theorem handleDisconnect_exhausted (s : WSState)
    (h5 : maxReconnectAttempts ≤ s.reconnectAttempts) :
    handleDisconnect s 1006 =
      { st := { s with pending := [], conn := .null },
        settled := s.pending.map (fun fid => ⟨fid, .rejected "WebSocket disconnected"⟩),
        reconnectScheduled := none,
        emitted := ["WebSocket connection lost after max reconnect attempts"] } := by
  unfold handleDisconnect
  dsimp only
  rw [if_neg (by omega : ¬(1006 = 1000)), if_neg (by omega)]

/-- One iteration of the failing-reconnect run while budget remains. -/
theorem uncleanLoop_step (fuel : Nat) (s : WSState)
    (h5 : s.reconnectAttempts < maxReconnectAttempts) :
    uncleanLoop (fuel + 1) s =
      ((reconnectDelay * 2 ^ s.reconnectAttempts) ::
         (uncleanLoop fuel
           { s with
             pending := [], conn := .null,
             reconnectAttempts := s.reconnectAttempts + 1 }).1,
       "WebSocket reconnection failed" ::
         (uncleanLoop fuel
           { s with
             pending := [], conn := .null,
             reconnectAttempts := s.reconnectAttempts + 1 }).2) := by
  simp only [uncleanLoop]
  rw [handleDisconnect_unclean_retry s h5]
  rfl

/-- The terminal iteration of the failing-reconnect run. -/
theorem uncleanLoop_stop (fuel : Nat) (s : WSState)
    (h5 : maxReconnectAttempts ≤ s.reconnectAttempts) :
    uncleanLoop (fuel + 1) s =
      ([], ["WebSocket connection lost after max reconnect attempts"]) := by
  simp only [uncleanLoop]
  rw [handleDisconnect_exhausted s h5]

/-- C3: reconnection policy.  A clean close (code 1000, the explicit
disconnect code) schedules no reconnection and emits nothing.  After an
unclean close of a freshly connected transport (attempt counter 0), with
every reconnect attempt failing, exactly five reconnection attempts are
scheduled, with delays doubling from the base delay (1000, 2000, 4000,
8000, 16000 ms); once the budget is exhausted the error subscribers
receive exactly one terminal reconnection-exhausted error event, as the
last event of the run, and no further reconnection attempts ever occur
(the output of the run is the same for every fuel bound of at least six). -/
theorem reconnection_policy (st : WSState) (h0 : st.reconnectAttempts = 0)
    (fuel : Nat) (hf : 6 ≤ fuel) :
    (handleDisconnect st 1000).reconnectScheduled = none ∧
    (handleDisconnect st 1000).emitted = [] ∧
    uncleanLoop fuel st =
      ([1000, 2000, 4000, 8000, 16000],
       ["WebSocket reconnection failed", "WebSocket reconnection failed",
        "WebSocket reconnection failed", "WebSocket reconnection failed",
        "WebSocket reconnection failed",
        "WebSocket connection lost after max reconnect attempts"]) ∧
    (uncleanLoop fuel st).2.count
      "WebSocket connection lost after max reconnect attempts" = 1 := by
  obtain ⟨m, rfl⟩ : ∃ m, fuel = m + 6 := ⟨fuel - 6, by omega⟩
  have hrun : uncleanLoop (m + 6) st =
      ([1000, 2000, 4000, 8000, 16000],
       ["WebSocket reconnection failed", "WebSocket reconnection failed",
        "WebSocket reconnection failed", "WebSocket reconnection failed",
        "WebSocket reconnection failed",
        "WebSocket connection lost after max reconnect attempts"]) := by
    rw [show (m + 6 : Nat) = (m + 5) + 1 by omega,
      uncleanLoop_step (m + 5) st (by simp [maxReconnectAttempts, h0])]
    rw [show (m + 5 : Nat) = (m + 4) + 1 by omega,
      uncleanLoop_step (m + 4) _ (by simp [maxReconnectAttempts, h0])]
    rw [show (m + 4 : Nat) = (m + 3) + 1 by omega,
      uncleanLoop_step (m + 3) _ (by simp [maxReconnectAttempts, h0])]
    rw [show (m + 3 : Nat) = (m + 2) + 1 by omega,
      uncleanLoop_step (m + 2) _ (by simp [maxReconnectAttempts, h0])]
    rw [show (m + 2 : Nat) = (m + 1) + 1 by omega,
      uncleanLoop_step (m + 1) _ (by simp [maxReconnectAttempts, h0])]
    rw [uncleanLoop_stop m _ (by simp [maxReconnectAttempts])]
    simp [h0, reconnectDelay]
  exact ⟨by simp [handleDisconnect], by simp [handleDisconnect], hrun,
    by rw [hrun]; decide⟩

/-- C3 witness: the policy evaluated at a connected transport with
attempt counter 0 and fuel 6. -/
theorem reconnection_policy_witness :
    (handleDisconnect demoConnected 1000).reconnectScheduled = none ∧
    (handleDisconnect demoConnected 1000).emitted = [] ∧
    uncleanLoop 6 demoConnected =
      ([1000, 2000, 4000, 8000, 16000],
       ["WebSocket reconnection failed", "WebSocket reconnection failed",
        "WebSocket reconnection failed", "WebSocket reconnection failed",
        "WebSocket reconnection failed",
        "WebSocket connection lost after max reconnect attempts"]) ∧
    (uncleanLoop 6 demoConnected).2.count
      "WebSocket connection lost after max reconnect attempts" = 1 :=
  reconnection_policy demoConnected rfl 6 (by decide)

/-- Projecting the flowIds back out of a batch rejection returns the
original key list. -/
theorem map_flowId_of_reject (l : List Nat) (e : String) :
    (l.map (fun fid => (⟨fid, Outcome.rejected e⟩ : Settlement))).map Settlement.flowId = l := by
  induction l with
  | nil => rfl
  | cons a t ih => simp [ih]

/-- Lemma: `send` on an open channel whose `ws.send` succeeds: a fresh entry is
appended to the pending table and the message goes out. -/
theorem send_connected_ok (st : WSState) (m : OutboundMsg)
    (hc : isConnected st = true) :
    send st m true =
      { st := { st with pending := st.pending ++ [st.nextId], nextId := st.nextId + 1 },
        sent := [(st.nextId, m)],
        outcome := .awaiting st.nextId } := by
  simp [send, hc]

/-- Lemma: `send` on an open channel whose `ws.send` throws: the freshly stored
entry is removed again, nothing observable remains but the consumed
identifier, and the promise rejects. -/
theorem send_connected_throw (st : WSState) (m : OutboundMsg)
    (hc : isConnected st = true) :
    send st m false =
      { st := { st with nextId := st.nextId + 1 },
        sent := [],
        outcome := .rejectedNow "WebSocket send failed" } := by
  simp [send, hc]

/-- Lemma: `handleMessage` on a progress message performs the broadcast only. -/
theorem handleMessage_progress (st : WSState) (msg : ServerMessage)
    (hp : msg.type = "progress") :
    handleMessage st msg =
      { st := st, settled := [],
        progressDeliveries := st.progressSubs.map (fun s =>
          (s, { flowId := msg.flowId, stage := msg.stage,
                progress := msg.progress, message := msg.message })),
        warnings := [] } := by
  simp [handleMessage, hp]

/-- Lemma: `handleMessage` on a non-progress message with a matching pending
entry: the entry is removed and settled. -/
theorem handleMessage_matched (st : WSState) (msg : ServerMessage)
    (hp : msg.type ≠ "progress") (hm : msg.flowId ∈ st.pending) :
    handleMessage st msg =
      { st := { st with pending := st.pending.erase msg.flowId },
        settled := [⟨msg.flowId,
          if msg.type = "error" then .rejected (msg.errorMessage.getD "Unknown error")
          else .fulfilled msg⟩],
        progressDeliveries := [], warnings := [] } := by
  simp [handleMessage, hp, hm]

/-- Lemma: `handleMessage` on a non-progress message with no matching pending
entry: dropped with a warning. -/
theorem handleMessage_unmatched (st : WSState) (msg : ServerMessage)
    (hp : msg.type ≠ "progress") (hm : msg.flowId ∉ st.pending) :
    handleMessage st msg =
      { st := st, settled := [], progressDeliveries := [],
        warnings := ["Received message for unknown flowId"] } := by
  simp [handleMessage, hp, hm]

/-- A firing timeout whose entry is still pending removes exactly that
entry. -/
theorem fireTimeout_mem (st : WSState) (fid : Nat) (hm : fid ∈ st.pending) :
    fireTimeout st fid =
      ({ st with pending := st.pending.erase fid },
       [⟨fid, .rejected "Request timeout"⟩]) := by
  simp [fireTimeout, hm]

/-- A firing timeout whose entry is already gone does nothing. -/
theorem fireTimeout_not_mem (st : WSState) (fid : Nat) (hm : fid ∉ st.pending) :
    fireTimeout st fid = (st, []) := by
  simp [fireTimeout, hm]

/-- Lemma: `disconnect` with a live channel object performs batch rejection and clears the
table. -/
theorem disconnect_conn (st : WSState) (hc : st.conn ≠ WsConn.null) :
    disconnect st =
      ({ st with conn := .null, pending := [] },
       st.pending.map (fun fid => ⟨fid, .rejected "WebSocket disconnected"⟩)) := by
  simp [disconnect, hc]

/-- Projections of `handleDisconnect` that agree across all close codes
and attempt budgets: the table is cleared, the identifier source is kept,
and every pending entry is batch-rejected. -/
theorem handleDisconnect_projections (st : WSState) (code : Nat) :
    (handleDisconnect st code).st.pending = [] ∧
    (handleDisconnect st code).st.nextId = st.nextId ∧
    (handleDisconnect st code).settled =
      st.pending.map (fun fid => ⟨fid, .rejected "WebSocket disconnected"⟩) := by
  unfold handleDisconnect
  dsimp only
  split_ifs <;> exact ⟨rfl, rfl, rfl⟩

/-- The correlation-table invariant is preserved by every step of the
transport state machine. -/
theorem stepWs_inv (st : WSState) (e : WsEvent) (h : WSInv st) :
    WSInv (stepWs st e).1 := by
  obtain ⟨hnd, hlt⟩ := h
  cases e with
  | sendReq m ok =>
    by_cases hc : isConnected st = false
    · simpa [stepWs, send_not_connected st m ok hc] using ⟨hnd, hlt⟩
    · have hc' : isConnected st = true := by
        simpa using hc
      cases ok with
      | true =>
        rw [stepWs, send_connected_ok st m hc']
        unfold WSInv
        dsimp only
        refine ⟨?_, ?_⟩
        · rw [List.nodup_append]
          refine ⟨hnd, List.nodup_singleton _, ?_⟩
          intro a ha hb
          simp only [List.mem_singleton] at hb
          subst hb
          exact absurd (hlt _ ha) (lt_irrefl _)
        · intro fid hfid
          rcases List.mem_append.mp hfid with hmem | hone
          · exact Nat.lt_succ_of_lt (hlt fid hmem)
          · simp only [List.mem_singleton] at hone
            omega
      | false =>
        rw [stepWs, send_connected_throw st m hc']
        exact ⟨hnd, fun fid hfid => Nat.lt_succ_of_lt (hlt fid hfid)⟩
  | inbound msg =>
    by_cases hp : msg.type = "progress"
    · rw [stepWs, handleMessage_progress st msg hp]
      exact ⟨hnd, hlt⟩
    · by_cases hm : msg.flowId ∈ st.pending
      · rw [stepWs, handleMessage_matched st msg hp hm]
        exact ⟨hnd.erase _, fun fid hfid => hlt fid (List.mem_of_mem_erase hfid)⟩
      · rw [stepWs, handleMessage_unmatched st msg hp hm]
        exact ⟨hnd, hlt⟩
  | timerFire fid =>
    by_cases hm : fid ∈ st.pending
    · rw [stepWs, fireTimeout_mem st fid hm]
      exact ⟨hnd.erase _, fun x hx => hlt x (List.mem_of_mem_erase hx)⟩
    · rw [stepWs, fireTimeout_not_mem st fid hm]
      exact ⟨hnd, hlt⟩
  | clientDisconnect =>
    by_cases hc : st.conn = WsConn.null
    · rw [stepWs, disconnect]
      rw [if_pos hc]
      exact ⟨hnd, hlt⟩
    · rw [stepWs, disconnect_conn st hc]
      exact ⟨List.nodup_nil, by simp⟩
  | channelClose code =>
    obtain ⟨hpend, hnext, _⟩ := handleDisconnect_projections st code
    rw [stepWs]
    refine ⟨by rw [hpend]; exact List.nodup_nil, ?_⟩
    intro fid hfid
    rw [hpend] at hfid
    simp at hfid

/-- The fresh-identifier source never decreases. -/
theorem stepWs_nextId_le (st : WSState) (e : WsEvent) :
    st.nextId ≤ (stepWs st e).1.nextId := by
  cases e with
  | sendReq m ok =>
    simp only [stepWs, send]
    split_ifs <;> simp
  | inbound msg =>
    simp only [stepWs, handleMessage]
    split_ifs <;> simp
  | timerFire fid =>
    simp only [stepWs, fireTimeout]
    split_ifs <;> simp
  | clientDisconnect =>
    simp only [stepWs, disconnect]
    split_ifs <;> simp
  | channelClose code =>
    rw [stepWs]
    dsimp only
    rw [(handleDisconnect_projections st code).2.1]

/-- A key pending after a step was pending before, or is the freshly
minted identifier. -/
theorem stepWs_pending_sub (st : WSState) (e : WsEvent) (x : Nat)
    (hx : x ∈ (stepWs st e).1.pending) : x ∈ st.pending ∨ x = st.nextId := by
  cases e with
  | sendReq m ok =>
    by_cases hc : isConnected st = false
    · rw [stepWs, send_not_connected st m ok hc] at hx
      exact Or.inl hx
    · have hc' : isConnected st = true := by simpa using hc
      cases ok with
      | true =>
        rw [stepWs, send_connected_ok st m hc'] at hx
        rcases List.mem_append.mp hx with hmem | hone
        · exact Or.inl hmem
        · simp only [List.mem_singleton] at hone
          exact Or.inr hone
      | false =>
        rw [stepWs, send_connected_throw st m hc'] at hx
        exact Or.inl hx
  | inbound msg =>
    by_cases hp : msg.type = "progress"
    · rw [stepWs, handleMessage_progress st msg hp] at hx
      exact Or.inl hx
    · by_cases hm : msg.flowId ∈ st.pending
      · rw [stepWs, handleMessage_matched st msg hp hm] at hx
        exact Or.inl (List.mem_of_mem_erase hx)
      · rw [stepWs, handleMessage_unmatched st msg hp hm] at hx
        exact Or.inl hx
  | timerFire fid =>
    by_cases hm : fid ∈ st.pending
    · rw [stepWs, fireTimeout_mem st fid hm] at hx
      exact Or.inl (List.mem_of_mem_erase hx)
    · rw [stepWs, fireTimeout_not_mem st fid hm] at hx
      exact Or.inl hx
  | clientDisconnect =>
    by_cases hc : st.conn = WsConn.null
    · rw [stepWs, disconnect, if_pos hc] at hx
      exact Or.inl hx
    · rw [stepWs, disconnect_conn st hc] at hx
      simp at hx
  | channelClose code =>
    rw [stepWs] at hx
    rw [(handleDisconnect_projections st code).1] at hx
    simp at hx

/-- The flowIds settled within one step are pairwise distinct. -/
theorem stepWs_settled_nodup (st : WSState) (e : WsEvent) (h : WSInv st) :
    ((stepWs st e).2.map Settlement.flowId).Nodup := by
  cases e with
  | sendReq m ok => simp [stepWs]
  | inbound msg =>
    simp only [stepWs, handleMessage]
    split_ifs <;> simp
  | timerFire fid =>
    simp only [stepWs, fireTimeout]
    split_ifs <;> simp
  | clientDisconnect =>
    by_cases hc : st.conn = WsConn.null
    · rw [stepWs, disconnect, if_pos hc]
      exact List.nodup_nil
    · rw [stepWs, disconnect_conn st hc]
      dsimp only
      rw [map_flowId_of_reject]
      exact h.1
  | channelClose code =>
    rw [stepWs]
    rw [(handleDisconnect_projections st code).2.2, map_flowId_of_reject]
    exact h.1

/-- Every settlement of a step settles an entry that was pending at the
start of the step, and that entry is no longer pending afterwards: an
entry is removed exactly when it is settled. -/
theorem stepWs_settled_mem (st : WSState) (e : WsEvent) (h : WSInv st)
    (s : Settlement) (hs : s ∈ (stepWs st e).2) :
    s.flowId ∈ st.pending ∧ s.flowId ∉ (stepWs st e).1.pending := by
  cases e with
  | sendReq m ok => simp [stepWs] at hs
  | inbound msg =>
    by_cases hp : msg.type = "progress"
    · rw [stepWs, handleMessage_progress st msg hp] at hs
      simp at hs
    · by_cases hm : msg.flowId ∈ st.pending
      · rw [stepWs, handleMessage_matched st msg hp hm] at hs ⊢
        simp only [List.mem_singleton] at hs
        subst hs
        exact ⟨hm, h.1.not_mem_erase⟩
      · rw [stepWs, handleMessage_unmatched st msg hp hm] at hs
        simp at hs
  | timerFire fid =>
    by_cases hm : fid ∈ st.pending
    · rw [stepWs, fireTimeout_mem st fid hm] at hs ⊢
      simp only [List.mem_singleton] at hs
      subst hs
      exact ⟨hm, h.1.not_mem_erase⟩
    · rw [stepWs, fireTimeout_not_mem st fid hm] at hs
      simp at hs
  | clientDisconnect =>
    by_cases hc : st.conn = WsConn.null
    · rw [stepWs, disconnect, if_pos hc] at hs
      simp at hs
    · rw [stepWs, disconnect_conn st hc] at hs ⊢
      rcases List.mem_map.mp hs with ⟨fid, hfid, rfl⟩
      exact ⟨hfid, by simp⟩
  | channelClose code =>
    rw [stepWs] at hs ⊢
    rw [(handleDisconnect_projections st code).2.2] at hs
    rw [(handleDisconnect_projections st code).1]
    rcases List.mem_map.mp hs with ⟨fid, hfid, rfl⟩
    exact ⟨hfid, by simp⟩

/-- The correlation-table invariant holds along every run. -/
theorem runWs_inv (st : WSState) (h : WSInv st) (es : List WsEvent) :
    WSInv (runWs st es).1 := by
  induction es generalizing st with
  | nil => simpa [runWs] using h
  | cons e es ih =>
    simp only [runWs]
    exact ih _ (stepWs_inv st e h)

/-- Auxiliary accumulator form of trace-level settle-once: having already
settled the distinct identifiers `done` (absent from the pending table and
below the fresh-identifier source), a run never settles any identifier
twice, nor one of `done` again. -/
theorem runWs_settled_nodup_aux (es : List WsEvent) (st : WSState) (h : WSInv st)
    (done : List Nat) (hnd : done.Nodup)
    (hdp : ∀ d ∈ done, d ∉ st.pending ∧ d < st.nextId) :
    (done ++ (runWs st es).2.map Settlement.flowId).Nodup := by
  induction es generalizing st done with
  | nil => simpa [runWs] using hnd
  | cons e es ih =>
    simp only [runWs]
    rw [List.map_append, ← List.append_assoc]
    apply ih (stepWs st e).1 (stepWs_inv st e h)
    · rw [List.nodup_append]
      refine ⟨hnd, stepWs_settled_nodup st e h, ?_⟩
      intro a ha hb
      rcases List.mem_map.mp hb with ⟨sm, hsm, rfl⟩
      exact (hdp _ ha).1 ((stepWs_settled_mem st e h sm hsm).1)
    · intro d hd
      rcases List.mem_append.mp hd with hdone | hstep
      · refine ⟨?_, lt_of_lt_of_le (hdp d hdone).2 (stepWs_nextId_le st e)⟩
        intro hmem
        rcases stepWs_pending_sub st e d hmem with hmem1 | heq
        · exact (hdp d hdone).1 hmem1
        · exact absurd (hdp d hdone).2 (by omega)
      · rcases List.mem_map.mp hstep with ⟨sm, hsm, rfl⟩
        obtain ⟨hin, hout⟩ := stepWs_settled_mem st e h sm hsm
        exact ⟨hout, lt_of_lt_of_le (h.2 _ hin) (stepWs_nextId_le st e)⟩

/-- Trace-level settle-once: over any run of the transport, each flowId is
settled at most once. -/
theorem runWs_settled_nodup (st : WSState) (h : WSInv st) (es : List WsEvent) :
    ((runWs st es).2.map Settlement.flowId).Nodup := by
  simpa using runWs_settled_nodup_aux es st h [] List.nodup_nil (by simp)

/-- C1: correlation lifecycle of the pending-request table.  A correlated
request that is actually sent registers a pending entry under a freshly
minted flowId (appended to the table, not previously pending); any two
concurrently pending entries have distinct flowIds, and this invariant is
preserved by every run of the machine; across any run each flowId is
settled at most once, and every settlement removes exactly the entry that
was pending at the start of its step — by an inbound non-progress match,
its own timeout, or a disconnection; an inbound message settles at most
one entry and a progress message settles none; and a fired timeout removes
only its own entry, leaving the rest of the table exactly `erase fid`. -/
theorem correlation_lifecycle (st : WSState) (h : WSInv st) :
    (∀ m ok fid, (send st m ok).outcome = SendOutcome.awaiting fid →
      (send st m ok).st.pending = st.pending ++ [fid] ∧ fid ∉ st.pending) ∧
    st.pending.Nodup ∧
    (∀ es, WSInv (runWs st es).1) ∧
    (∀ es, ((runWs st es).2.map Settlement.flowId).Nodup) ∧
    (∀ e s, s ∈ (stepWs st e).2 →
      s.flowId ∈ st.pending ∧ s.flowId ∉ (stepWs st e).1.pending) ∧
    (∀ msg, (handleMessage st msg).settled.length ≤ 1) ∧
    (∀ msg, msg.type = "progress" → (handleMessage st msg).settled = []) ∧
    (∀ fid, (fireTimeout st fid).1.pending = st.pending.erase fid ∧
      ∀ s ∈ (fireTimeout st fid).2, s.flowId = fid) := by
  refine ⟨?_, h.1, runWs_inv st h, runWs_settled_nodup st h,
    fun e s hs => stepWs_settled_mem st e h s hs, ?_, ?_, ?_⟩
  · intro m ok fid hout
    by_cases hc : isConnected st = false
    · rw [send_not_connected st m ok hc] at hout
      simp at hout
    · have hc2 : isConnected st = true := by simpa using hc
      cases ok with
      | true =>
        rw [send_connected_ok st m hc2] at hout ⊢
        simp only [SendOutcome.awaiting.injEq] at hout
        subst hout
        exact ⟨rfl, fun hmem => absurd (h.2 _ hmem) (lt_irrefl _)⟩
      | false =>
        rw [send_connected_throw st m hc2] at hout
        simp at hout
  · intro msg
    by_cases hp : msg.type = "progress"
    · rw [handleMessage_progress st msg hp]
      simp
    · by_cases hm : msg.flowId ∈ st.pending
      · rw [handleMessage_matched st msg hp hm]
        simp
      · rw [handleMessage_unmatched st msg hp hm]
        simp
  · intro msg hp
    rw [handleMessage_progress st msg hp]
  · intro fid
    by_cases hm : fid ∈ st.pending
    · rw [fireTimeout_mem st fid hm]
      refine ⟨rfl, ?_⟩
      intro s hs
      simp only [List.mem_singleton] at hs
      subst hs
      rfl
    · rw [fireTimeout_not_mem st fid hm]
      refine ⟨(List.erase_of_not_mem hm).symm, ?_⟩
      intro s hs
      simp at hs

/-- C1 witness: evaluated on a connected transport with pending flowIds 0
and 1; a new send registers fresh flowId 2; a run consisting of an inbound
result for 0, the timeout of 1 and an unclean close settles each flowId at
most once. -/
theorem correlation_lifecycle_witness :
    WSInv demoConnected ∧
    ((send demoConnected { type := "flow.start" } true).st.pending =
        demoConnected.pending ++ [2] ∧ (2 : Nat) ∉ demoConnected.pending) ∧
    ((runWs demoConnected
        [WsEvent.inbound { flowId := 0, type := "flow.result" },
         WsEvent.timerFire 1,
         WsEvent.channelClose 1006]).2.map Settlement.flowId).Nodup ∧
    (handleMessage demoConnected { flowId := 1, type := "flow.result" }).settled.length ≤ 1 ∧
    (fireTimeout demoConnected 0).1.pending = demoConnected.pending.erase 0 :=
  ⟨by decide,
   (correlation_lifecycle demoConnected (by decide)).1 { type := "flow.start" } true 2 rfl,
   (correlation_lifecycle demoConnected (by decide)).2.2.2.1
     [WsEvent.inbound { flowId := 0, type := "flow.result" },
      WsEvent.timerFire 1,
      WsEvent.channelClose 1006],
   (correlation_lifecycle demoConnected (by decide)).2.2.2.2.2.1
     { flowId := 1, type := "flow.result" },
   ((correlation_lifecycle demoConnected (by decide)).2.2.2.2.2.2.2 0).1⟩

end Wallet
